import Mathlib

/-!
Shallow embedding of the icon-resolution cache of `app/core/icon_cache.py`
(ChatForge repository), together with theorems checking the specification
claims about it.

Conventions of the embedding:
* Python `bytes` values are `List Nat` (each element a byte value).
* Python `int` is mathematical `Int`; Python `%` and `//`/`>>` on a positive
  modulus or divisor agree with Lean `Int.emod` / `Int.ediv`, which are the
  `%` and `/` of `Int`.
* `time.time()` is passed in explicitly as a natural number of seconds
  (`now`); the code only compares times and adds constant second offsets.
* Qt image decoding (`QPixmap.loadFromData` plus rescaling, wrapped by
  `_icon_from_bytes`) is an external primitive: the model is parametrised by
  `decode : List Nat → Option Icon` over an arbitrary icon type `Icon`.
* Filesystem state is a map from path to stored bytes; `os.replace` is an
  atomic update of that map.  I/O effects performed by a call (disk reads,
  fetch scheduling, signal emissions, debug logs) are returned as an explicit
  effect list.
-/

namespace ChatForge

/-! ### Constants from `icon_cache.py` -/

def CDN_BASE : String := "https://cdn.discordapp.com"

def DEFAULT_ICON_SIZE : Nat := 18

def RETRY_COOLDOWN_SECONDS : Nat := 300

/-! ### Python `int()` and truthiness primitives -/

/-- Value of a list of decimal digit characters. -/
def digitsVal (ds : List Char) : Nat :=
  ds.foldl (fun a c => 10 * a + (c.toNat - 48)) 0

/-- Parse a nonempty all-digit character list, else `none`. -/
def digitsCore (ds : List Char) : Option Int :=
  if ds.isEmpty then none
  else if ds.all Char.isDigit then some (digitsVal ds) else none

/-- Model of the Python built-in `int(s)` on strings, restricted to its ASCII
grammar: optional surrounding whitespace, an optional sign, then one or more
decimal digits.  (Digit-group underscores and non-ASCII digits accepted by
CPython are not modelled; no input in this development uses them.)  Returns
`none` where `int()` raises `ValueError`. -/
def pyInt (s : String) : Option Int :=
  let cs := s.data.dropWhile Char.isWhitespace
  let cs := (cs.reverse.dropWhile Char.isWhitespace).reverse
  match cs with
  | '+' :: rest => digitsCore rest
  | '-' :: rest => (digitsCore rest).map (fun n => -n)
  | _ => digitsCore cs

/-- Python truthiness of an optional string: `None` and `""` are falsy. -/
def pyTruthy (o : Option String) : Bool :=
  match o with
  | none => false
  | some s => !(s == "")

/-! ### `default_avatar_index` and URL builders -/

/-- Embedding of `default_avatar_index(user_id, discriminator)`.
`int(x) >> 22` is arithmetic shift, i.e. floor division by `2 ^ 22 = 4194304`,
which for the positive divisor coincides with Lean `Int` division. -/
def default_avatar_index (user_id discriminator : Option String) : Int :=
  if pyTruthy discriminator && !(discriminator == some "0")
      && !(discriminator == some "0000") then
    match pyInt (discriminator.getD "") with
    | some n => n % 5
    | none => 0
  else if pyTruthy user_id then
    match pyInt (user_id.getD "") with
    | some n => (n / 4194304) % 6
    | none => 0
  else 0

/-- The index selection exactly as the claim words it: the first branch is
taken only when the discriminator also parses as an integer, so a present,
non-sentinel, non-numeric discriminator falls through to the user-id branch.
Written from the claim text, to be compared with `default_avatar_index`. -/
def claimedAvatarIndex (user_id discriminator : Option String) : Int :=
  if pyTruthy discriminator && (pyInt (discriminator.getD "")).isSome
      && !(discriminator == some "0") && !(discriminator == some "0000") then
    ((pyInt (discriminator.getD "")).getD 0) % 5
  else if pyTruthy user_id && (pyInt (user_id.getD "")).isSome then
    (((pyInt (user_id.getD "")).getD 0) / 4194304) % 6
  else 0

/-- Embedding of `build_default_avatar_url(index, size)`. -/
def build_default_avatar_url (index : Int) (size : Nat) : String :=
  CDN_BASE ++ "/embed/avatars/" ++ toString (index % 6) ++ ".png?size="
    ++ toString size

/-! ### Fetch-job result classification (`_IconDownloadTask.run`) -/

/-- Result of one fetch job, as delivered by the `succeeded`/`failed`
signals of `_DownloadSignals`. -/
inductive FetchOutcome where
  | succeeded (payload : List Nat)
  | failed (reason : String)
deriving DecidableEq, Repr

/-- Embedding of the response classification in `_IconDownloadTask.run`
(the non-exceptional path: an HTTP response with a status code and a body).
`response.content or b""` normalises a falsy body to empty bytes, so the
emptiness test is on the body itself. -/
def classifyResponse (status : Nat) (body : List Nat) : FetchOutcome :=
  if status ≠ 200 then .failed ("HTTP " ++ toString status)
  else if body = [] then .failed "empty response body"
  else .succeeded body


/-! ### SHA-256 (`hashlib.sha256(...).hexdigest()`)

A byte-level implementation of FIPS 180-4 SHA-256 over `List Nat`, used by
`_cache_path` to derive the on-disk file name of a cache key.  All 32-bit
words are naturals reduced modulo `2 ^ 32`. -/

/-- Reduce to a 32-bit word. -/
def w32 (n : Nat) : Nat := n % 4294967296

/-- Right rotation of a 32-bit word by `n` bits. -/
def rotr (n x : Nat) : Nat := w32 ((x >>> n) ||| (x <<< (32 - n)))

def smallSigma0 (x : Nat) : Nat := rotr 7 x ^^^ rotr 18 x ^^^ (x >>> 3)

def smallSigma1 (x : Nat) : Nat := rotr 17 x ^^^ rotr 19 x ^^^ (x >>> 10)

def bigSigma0 (x : Nat) : Nat := rotr 2 x ^^^ rotr 13 x ^^^ rotr 22 x

def bigSigma1 (x : Nat) : Nat := rotr 6 x ^^^ rotr 11 x ^^^ rotr 25 x

/-- The 64 SHA-256 round constants (FIPS 180-4 §4.2.2), in decimal. -/
def sha256K : List Nat :=
  [1116352408, 1899447441, 3049323471, 3921009573, 961987163,
   1508970993, 2453635748, 2870763221, 3624381080, 310598401,
   607225278, 1426881987, 1925078388, 2162078206, 2614888103,
   3248222580, 3835390401, 4022224774, 264347078, 604807628,
   770255983, 1249150122, 1555081692, 1996064986, 2554220882,
   2821834349, 2952996808, 3210313671, 3336571891, 3584528711,
   113926993, 338241895, 666307205, 773529912, 1294757372,
   1396182291, 1695183700, 1986661051, 2177026350, 2456956037,
   2730485921, 2820302411, 3259730800, 3345764771, 3516065817,
   3600352804, 4094571909, 275423344, 430227734, 506948616,
   659060556, 883997877, 958139571, 1322822218, 1537002063,
   1747873779, 1955562222, 2024104815, 2227730452, 2361852424,
   2428436474, 2756734187, 3204031479, 3329325298]

/-- The SHA-256 initial hash value (FIPS 180-4 §5.3.3), in decimal. -/
def sha256H0 : List Nat :=
  [1779033703, 3144134277, 1013904242, 2773480762, 1359893119,
   2600822924, 528734635, 1541459225]

/-- Big-endian bytes of a 64-bit length field. -/
def toBE64 (n : Nat) : List Nat :=
  (List.range 8).map (fun i => (n >>> (8 * (7 - i))) % 256)

/-- SHA-256 message padding: append `0x80`, zeros to 56 mod 64, then the
bit length as 8 big-endian bytes. -/
def sha256Pad (msg : List Nat) : List Nat :=
  let L := msg.length
  let k := (119 - (L % 64)) % 64
  msg ++ [0x80] ++ List.replicate k 0 ++ toBE64 (8 * L)

/-- Split into 64-byte blocks (fuel-driven; `fuel = l.length` suffices). -/
def chunks64Aux : Nat → List Nat → List (List Nat)
  | 0, _ => []
  | _ + 1, [] => []
  | fuel + 1, l => l.take 64 :: chunks64Aux fuel (l.drop 64)

def chunks64 (l : List Nat) : List (List Nat) := chunks64Aux l.length l

/-- The `i`-th big-endian 32-bit word of a block. -/
def wordAt (bs : List Nat) (i : Nat) : Nat :=
  w32 ((bs.getD (4 * i) 0 <<< 24) ||| (bs.getD (4 * i + 1) 0 <<< 16)
    ||| (bs.getD (4 * i + 2) 0 <<< 8) ||| bs.getD (4 * i + 3) 0)

/-- Extend the 16 block words with `k` further schedule words. -/
def buildSchedule (ws : List Nat) : Nat → List Nat
  | 0 => ws
  | k + 1 =>
    let n := ws.length
    buildSchedule
      (ws ++ [w32 (smallSigma1 (ws.getD (n - 2) 0) + ws.getD (n - 7) 0
        + smallSigma0 (ws.getD (n - 15) 0) + ws.getD (n - 16) 0)]) k

/-- One compression round on the 8-word working state. -/
def compressStep (st : List Nat) (wk : Nat × Nat) : List Nat :=
  match st with
  | [a, b, c, d, e, f, g, h] =>
    let ch := (e &&& f) ^^^ ((e ^^^ 0xffffffff) &&& g)
    let maj := (a &&& b) ^^^ (a &&& c) ^^^ (b &&& c)
    let t1 := w32 (h + bigSigma1 e + ch + wk.2 + wk.1)
    let t2 := w32 (bigSigma0 a + maj)
    [w32 (t1 + t2), a, b, c, w32 (d + t1), e, f, g]
  | _ => st

/-- Compress one 64-byte block into the running hash value. -/
def sha256Block (H : List Nat) (block : List Nat) : List Nat :=
  let ws := buildSchedule ((List.range 16).map (wordAt block)) 48
  let st := (ws.zip sha256K).foldl compressStep H
  List.zipWith (fun x y => w32 (x + y)) H st

/-- SHA-256 digest (32 bytes) of a byte list. -/
def sha256 (msg : List Nat) : List Nat :=
  let final := (chunks64 (sha256Pad msg)).foldl sha256Block sha256H0
  final.flatMap (fun wd =>
    [(wd >>> 24) % 256, (wd >>> 16) % 256, (wd >>> 8) % 256, wd % 256])

/-- Lower-case hex digit of a nibble: `0..9` then `a..f`. -/
def hexDigit (n : Nat) : Char :=
  if n < 10 then Char.ofNat (48 + n) else Char.ofNat (87 + n)

/-- Lower-case hex rendering of a byte list (`hexdigest`). -/
def hexOfBytes (bs : List Nat) : String :=
  String.mk (bs.flatMap (fun b => [hexDigit (b / 16 % 16), hexDigit (b % 16)]))

/-- UTF-8 encoding of a string (`str.encode("utf-8")`). -/
def utf8Encode (s : String) : List Nat :=
  s.data.flatMap (fun c =>
    let n := c.toNat
    if n < 0x80 then [n]
    else if n < 0x800 then
      [0xc0 ||| (n >>> 6), 0x80 ||| (n &&& 0x3f)]
    else if n < 0x10000 then
      [0xe0 ||| (n >>> 12), 0x80 ||| ((n >>> 6) &&& 0x3f), 0x80 ||| (n &&& 0x3f)]
    else
      [0xf0 ||| (n >>> 18), 0x80 ||| ((n >>> 12) &&& 0x3f),
       0x80 ||| ((n >>> 6) &&& 0x3f), 0x80 ||| (n &&& 0x3f)])

/-! ### The `IconCache` state machine

State of one `IconCache` instance.  `memory` models the `OrderedDict`
(head = least recently used, tail = most recently used); `inFlight` the
`_in_flight` set; `failedUntil` the `_failed_until` dict (deadlines in
seconds); `disk` the filesystem keyed by absolute path; `diskDir` the
`<cache-root>/icons` directory. -/

structure CacheState (Icon : Type) where
  memory : List (String × Icon)
  maxItems : Nat
  inFlight : String → Bool
  failedUntil : String → Option Nat
  diskDir : String
  disk : String → Option (List Nat)

/-- Observable side effects of one facade call, in order of occurrence. -/
inductive Effect (Icon : Type) where
  | diskRead (path : String)
  | diskWrite (path : String) (payload : List Nat)
  | scheduleFetch (key url : String)
  | iconReady (key : String) (icon : Icon)
  | logFailure (key reason : String)

/-- State of a freshly constructed `IconCache(max_items=...)` over a given
filesystem: empty memory cache, empty in-flight set, empty negative cache,
disk directory `<cache-root>/icons` (`os.path.join` with posix separator). -/
def initialState (Icon : Type) (cacheRoot : String) (maxItems : Nat)
    (disk : String → Option (List Nat)) : CacheState Icon :=
  { memory := []
    maxItems := maxItems
    inFlight := fun _ => false
    failedUntil := fun _ => none
    diskDir := cacheRoot ++ "/icons"
    disk := disk }

/-- Ordered-dict lookup (`dict.get` / `in`). -/
def odLookup {Icon : Type} (k : String) : List (String × Icon) → Option Icon
  | [] => none
  | (k2, v) :: t => if k2 = k then some v else odLookup k t

/-- Remove the entry for `k`, keeping order. -/
def odErase {Icon : Type} (k : String) (l : List (String × Icon)) :
    List (String × Icon) :=
  l.filter (fun e => e.1 != k)

/-- The `while len(self._memory) > self._max_items: popitem(last=False)`
loop: repeatedly drop the least-recently-used (front) entry while the size
exceeds the capacity. -/
def evictLoop {Icon : Type} (cap : Nat) :
    List (String × Icon) → List (String × Icon)
  | [] => []
  | e :: t => if t.length + 1 > cap then evictLoop cap t else e :: t

/-- `self._memory[key] = icon; move_to_end(key)` followed by the eviction
loop, at the level of the memory list.  Assignment plus `move_to_end` is
erase-then-append. -/
def rememberMem {Icon : Type} (cap : Nat) (mem : List (String × Icon))
    (key : String) (icon : Icon) : List (String × Icon) :=
  evictLoop cap (odErase key mem ++ [(key, icon)])

/-- Embedding of `IconCache._remember`. -/
def remember {Icon : Type} (s : CacheState Icon) (key : String) (icon : Icon) :
    CacheState Icon :=
  { s with memory := rememberMem s.maxItems s.memory key icon }

/-- Embedding of `IconCache.get_icon`: memory lookup, touching recency on a
hit (`move_to_end`).  Returns the result and the updated state. -/
def get_icon {Icon : Type} (s : CacheState Icon) (key : String) :
    Option Icon × CacheState Icon :=
  match odLookup key s.memory with
  | none => (none, s)
  | some icon => (some icon, { s with memory := odErase key s.memory ++ [(key, icon)] })

/-- Embedding of `IconCache._cache_path`: `<disk-dir>/<sha256(key)>.img`. -/
def cachePath (diskDir key : String) : String :=
  diskDir ++ "/" ++ hexOfBytes (sha256 (utf8Encode key)) ++ ".img"

/-- Embedding of `IconCache._store_to_disk` on the successful I/O path: the
temp-file write plus `os.replace` is an atomic update of the path map.  (On
`OSError` the code swallows the error and leaves the store unchanged; the
failure path performs no state mutation and is not modelled further.) -/
def storeToDisk {Icon : Type} (s : CacheState Icon) (key : String)
    (payload : List Nat) : CacheState Icon × List (Effect Icon) :=
  let path := cachePath s.diskDir key
  ({ s with disk := fun p => if p = path then some payload else s.disk p },
   [.diskWrite path payload])

/-- Embedding of `IconCache._load_from_disk` composed with
`_icon_from_bytes`: an absent or unreadable file is `none`, otherwise the
stored bytes are decoded (decode failure also yields `none`). -/
def loadFromDisk {Icon : Type} (decode : List Nat → Option Icon)
    (s : CacheState Icon) (key : String) : Option Icon :=
  match s.disk (cachePath s.diskDir key) with
  | none => none
  | some payload => decode payload

/-- The negative-cache test in `request_icon`:
`failed_until and failed_until > time.time()` — Python float truthiness
makes a zero deadline falsy. -/
def coolingDown {Icon : Type} (s : CacheState Icon) (key : String)
    (now : Nat) : Bool :=
  match s.failedUntil key with
  | none => false
  | some d => !(d == 0) && decide (now < d)

/-- Embedding of `IconCache.request_icon(key, url)` at time `now`. -/
def requestIcon {Icon : Type} (decode : List Nat → Option Icon)
    (s : CacheState Icon) (key : String) (url : Option String) (now : Nat) :
    CacheState Icon × List (Effect Icon) :=
  if key = "" then (s, [])
  else if (odLookup key s.memory).isSome then (s, [])
  else if s.inFlight key then (s, [])
  else if coolingDown s key now then (s, [])
  else
    match loadFromDisk decode s key with
    | some icon =>
      (remember s key icon,
       [.diskRead (cachePath s.diskDir key), .iconReady key icon])
    | none =>
      match url with
      | none => (s, [.diskRead (cachePath s.diskDir key)])
      | some u =>
        ({ s with inFlight := fun k2 => if k2 = key then true else s.inFlight k2 },
         [.diskRead (cachePath s.diskDir key), .scheduleFetch key u])

/-- Embedding of `IconCache._mark_failed`: record the cooldown deadline and
log the reason. -/
def markFailed {Icon : Type} (s : CacheState Icon) (key reason : String)
    (now : Nat) : CacheState Icon × List (Effect Icon) :=
  ({ s with failedUntil := fun k2 =>
      if k2 = key then some (now + RETRY_COOLDOWN_SECONDS)
      else s.failedUntil k2 },
   [.logFailure key reason])

/-- Embedding of `IconCache._on_download_failed`. -/
def onDownloadFailed {Icon : Type} (s : CacheState Icon) (key reason : String)
    (now : Nat) : CacheState Icon × List (Effect Icon) :=
  markFailed
    { s with inFlight := fun k2 => if k2 = key then false else s.inFlight k2 }
    key reason now

/-- Embedding of `IconCache._on_download_succeeded`. -/
def onDownloadSucceeded {Icon : Type} (decode : List Nat → Option Icon)
    (s : CacheState Icon) (key : String) (payload : List Nat) (now : Nat) :
    CacheState Icon × List (Effect Icon) :=
  let s1 : CacheState Icon :=
    { s with inFlight := fun k2 => if k2 = key then false else s.inFlight k2 }
  match decode payload with
  | none => markFailed s1 key "invalid image" now
  | some icon =>
    let s2 := remember s1 key icon
    let s3 := (storeToDisk s2 key payload).1
    ({ s3 with failedUntil := fun k2 => if k2 = key then none
        else s3.failedUntil k2 },
     [.diskWrite (cachePath s2.diskDir key) payload, .iconReady key icon])

/-- Dispatch of a delivered fetch outcome to the connected slots
(`succeeded → _on_download_succeeded`, `failed → _on_download_failed`). -/
def deliverOutcome {Icon : Type} (decode : List Nat → Option Icon)
    (s : CacheState Icon) (key : String) (outcome : FetchOutcome)
    (now : Nat) : CacheState Icon × List (Effect Icon) :=
  match outcome with
  | .succeeded payload => onDownloadSucceeded decode s key payload now
  | .failed reason => onDownloadFailed s key reason now

/-- `True` exactly for observer notifications (`icon_ready` emissions). -/
def isNotify {Icon : Type} : Effect Icon → Bool
  | .iconReady _ _ => true
  | _ => false

/-- `True` exactly for fetch-job scheduling effects (`self._pool.start`). -/
def isSchedule {Icon : Type} : Effect Icon → Bool
  | .scheduleFetch _ _ => true
  | _ => false

/-- `True` exactly for disk-read effects (`_load_from_disk` calls). -/
def isDiskRead {Icon : Type} : Effect Icon → Bool
  | .diskRead _ => true
  | _ => false

/-- Fold of `_remember` over a list of keys: resolve each key in turn with
icon `f k` (the memory-cache content of a sequence of successful
resolutions). -/
def insertAllMem {Icon : Type} (cap : Nat) (f : String → Icon)
    (ks : List String) (mem : List (String × Icon)) : List (String × Icon) :=
  ks.foldl (fun m k2 => rememberMem cap m k2 (f k2)) mem

/-! ### Helper lemmas about the ordered-dict model -/

lemma odLookup_append_of_none {Icon : Type} (k : String)
    (l1 l2 : List (String × Icon)) (h : odLookup k l1 = none) :
    odLookup k (l1 ++ l2) = odLookup k l2 := by
  induction l1 with
  | nil => rfl
  | cons e t ih =>
    obtain ⟨k2, v⟩ := e
    by_cases hk : k2 = k
    · simp only [odLookup, if_pos hk] at h
      exact absurd h (by simp)
    · simp only [List.cons_append, odLookup, if_neg hk] at h ⊢
      exact ih h

lemma odLookup_eq_none {Icon : Type} (k : String) (l : List (String × Icon))
    (h : ∀ p ∈ l, p.1 ≠ k) : odLookup k l = none := by
  induction l with
  | nil => rfl
  | cons e t ih =>
    obtain ⟨k2, v⟩ := e
    rw [odLookup]
    split
    · exact absurd (by assumption) (h (k2, v) (by simp))
    · exact ih (fun p hp => h p (by simp [hp]))

lemma odErase_keys {Icon : Type} (k : String) (l : List (String × Icon)) :
    ∀ p ∈ odErase k l, p.1 ≠ k := by
  intro p hp
  have := List.of_mem_filter hp
  simpa using this

lemma odErase_of_forall {Icon : Type} (k : String) (l : List (String × Icon))
    (h : ∀ p ∈ l, p.1 ≠ k) : odErase k l = l := by
  apply List.filter_eq_self.mpr
  intro p hp
  simpa using h p hp

lemma evictLoop_eq_drop {Icon : Type} (cap : Nat) (l : List (String × Icon)) :
    evictLoop cap l = l.drop (l.length - cap) := by
  induction l with
  | nil => simp [evictLoop]
  | cons e t ih =>
    rw [evictLoop]
    split
    · next h =>
      have hlen : t.length + 1 - cap = (t.length - cap) + 1 := by omega
      rw [ih, List.length_cons, hlen, List.drop_succ_cons]
    · next h =>
      have hlen : t.length + 1 - cap = 0 := by omega
      rw [List.length_cons, hlen, List.drop_zero]

lemma rememberMem_eq_drop {Icon : Type} (cap : Nat)
    (mem : List (String × Icon)) (k : String) (icon : Icon) :
    rememberMem cap mem k icon =
      (odErase k mem ++ [(k, icon)]).drop ((odErase k mem).length + 1 - cap) := by
  rw [rememberMem, evictLoop_eq_drop, List.length_append, List.length_cons,
    List.length_nil]

lemma odLookup_rememberMem {Icon : Type} (cap : Nat)
    (mem : List (String × Icon)) (k : String) (icon : Icon) (hcap : 0 < cap) :
    odLookup k (rememberMem cap mem k icon) = some icon := by
  rw [rememberMem_eq_drop]
  have hd : (odErase k mem).length + 1 - cap ≤ (odErase k mem).length := by
    omega
  rw [List.drop_append_of_le_length hd]
  rw [odLookup_append_of_none]
  · rw [odLookup]
    simp
  · exact odLookup_eq_none _ _
      (fun p hp => odErase_keys k mem p (List.mem_of_mem_drop hp))

lemma insertAllMem_fresh {Icon : Type} (cap : Nat) (f : String → Icon) :
    ∀ (ks : List String) (mem : List (String × Icon)),
      (mem.map Prod.fst ++ ks).Nodup → mem.length ≤ cap →
      insertAllMem cap f ks mem =
        (mem ++ ks.map (fun k2 => (k2, f k2))).drop
          (mem.length + ks.length - cap) := by
  intro ks
  induction ks with
  | nil =>
    intro mem h hlen
    simp [insertAllMem, Nat.sub_eq_zero_of_le hlen]
  | cons k ks ih =>
    intro mem h hlen
    rcases List.nodup_append.mp (by simpa using h) with ⟨h1, h2, hdisj⟩
    have hkfresh : ∀ p ∈ mem, p.1 ≠ k := by
      intro p hp hpk
      exact hdisj (hpk ▸ List.mem_map_of_mem Prod.fst hp) (List.mem_cons_self k ks)
    have heq1 : rememberMem cap mem k (f k) =
        (mem ++ [(k, f k)]).drop (mem.length + 1 - cap) := by
      rw [rememberMem_eq_drop, odErase_of_forall _ _ hkfresh]
    have hlen2 : (rememberMem cap mem k (f k)).length = mem.length + 1 -
        (mem.length + 1 - cap) := by
      rw [heq1, List.length_drop, List.length_append, List.length_cons,
        List.length_nil]
    have hsub : ((rememberMem cap mem k (f k)).map Prod.fst ++ ks).Sublist
        ((mem.map Prod.fst ++ [k]) ++ ks) := by
      apply List.Sublist.append_right
      rw [heq1, List.map_drop]
      have hmap : List.map Prod.fst (mem ++ [(k, f k)]) =
          List.map Prod.fst mem ++ [k] := by simp
      rw [hmap]
      exact List.drop_sublist _ _
    have hnd2 : ((rememberMem cap mem k (f k)).map Prod.fst ++ ks).Nodup := by
      apply List.Nodup.sublist hsub
      simpa [List.append_assoc] using h
    have hstep : insertAllMem cap f (k :: ks) mem =
        insertAllMem cap f ks (rememberMem cap mem k (f k)) := by
      simp [insertAllMem]
    have hle : mem.length + 1 - cap ≤ (mem ++ [(k, f k)]).length := by
      simp only [List.length_append, List.length_cons, List.length_nil]
      omega
    rw [hstep, ih _ hnd2 (by omega), heq1]
    rw [← List.drop_append_of_le_length hle]
    rw [List.drop_drop]
    have hlist : (mem ++ [(k, f k)]) ++ ks.map (fun k2 => (k2, f k2)) =
        mem ++ (k :: ks).map (fun k2 => (k2, f k2)) := by
      simp
    rw [hlist]
    congr 1
    simp only [List.length_drop, List.length_append, List.length_cons,
      List.length_nil]
    omega

/-! ### Branch lemmas for `request_icon` -/

lemma requestIcon_eq_noop {Icon : Type} (decode : List Nat → Option Icon)
    (s : CacheState Icon) (k : String) (url : Option String) (now : Nat)
    (h : k = "" ∨ (odLookup k s.memory).isSome = true ∨ s.inFlight k = true
      ∨ coolingDown s k now = true) :
    requestIcon decode s k url now = (s, []) := by
  by_cases h1 : k = ""
  · simp [requestIcon, h1]
  · by_cases h2 : (odLookup k s.memory).isSome
    · simp [requestIcon, h1, h2]
    · by_cases h3 : s.inFlight k
      · simp [requestIcon, h1, h2, h3]
      · by_cases h4 : coolingDown s k now
        · simp [requestIcon, h1, h2, h3, h4]
        · rcases h with h | h | h | h <;> simp_all

lemma requestIcon_schedule {Icon : Type} (decode : List Nat → Option Icon)
    (s : CacheState Icon) (k u : String) (now : Nat)
    (h1 : k ≠ "") (h2 : odLookup k s.memory = none)
    (h3 : s.inFlight k = false) (h4 : coolingDown s k now = false)
    (h5 : loadFromDisk decode s k = none) :
    requestIcon decode s k (some u) now =
      ({ s with inFlight := fun k2 => if k2 = k then true else s.inFlight k2 },
       [.diskRead (cachePath s.diskDir k), .scheduleFetch k u]) := by
  simp [requestIcon, h1, h2, h3, h4, h5]

lemma requestIcon_diskHit {Icon : Type} (decode : List Nat → Option Icon)
    (s : CacheState Icon) (k : String) (url : Option String) (now : Nat)
    (icon : Icon)
    (h1 : k ≠ "") (h2 : odLookup k s.memory = none)
    (h3 : s.inFlight k = false) (h4 : coolingDown s k now = false)
    (h5 : loadFromDisk decode s k = some icon) :
    requestIcon decode s k url now =
      (remember s k icon,
       [.diskRead (cachePath s.diskDir k), .iconReady k icon]) := by
  simp [requestIcon, h1, h2, h3, h4, h5]

lemma requestIcon_diskMiss_noUrl {Icon : Type} (decode : List Nat → Option Icon)
    (s : CacheState Icon) (k : String) (now : Nat)
    (h1 : k ≠ "") (h2 : odLookup k s.memory = none)
    (h3 : s.inFlight k = false) (h4 : coolingDown s k now = false)
    (h5 : loadFromDisk decode s k = none) :
    requestIcon decode s k none now = (s, [.diskRead (cachePath s.diskDir k)]) := by
  simp [requestIcon, h1, h2, h3, h4, h5]

/-! ### Claim theorems -/

/-- C1 (counterexample): the claim says a 2xx status with a non-empty body is
classified as a success, but `_IconDownloadTask.run` treats every status
other than exactly 200 as a failure: status 201 with body `[55]` is 2xx and
non-empty, yet is classified as the failure `HTTP 201`, not a success. -/
theorem classifyResponse_2xx_counterexample :
    (200 ≤ 201 ∧ 201 < 300) ∧ ([55] : List Nat) ≠ [] ∧
      classifyResponse 201 [55] ≠ FetchOutcome.succeeded [55] ∧
      classifyResponse 201 [55] = FetchOutcome.failed "HTTP 201" := by
  decide

/-- C1 (amended): a response with status other than exactly 200 is classified
as a failure whose reason is `HTTP <status>`; a 200 status with an empty body
is a failure with reason `empty response body`; a 200 status with a
non-empty body is a success whose payload is the body bytes. -/
theorem classifyResponse_characterization (status : Nat) (body : List Nat) :
    (status ≠ 200 →
      classifyResponse status body = .failed ("HTTP " ++ toString status)) ∧
    (status = 200 → body = [] →
      classifyResponse status body = .failed "empty response body") ∧
    (status = 200 → body ≠ [] →
      classifyResponse status body = .succeeded body) := by
  refine ⟨fun h => by simp [classifyResponse, h],
    fun h hb => by simp [classifyResponse, h, hb],
    fun h hb => by simp [classifyResponse, h, hb]⟩

/-- Witness for `classifyResponse_characterization` at statuses 404 and 200. -/
theorem classifyResponse_characterization_witness :
    classifyResponse 404 [1] = .failed "HTTP 404" ∧
    classifyResponse 200 [] = .failed "empty response body" ∧
    classifyResponse 200 [9] = .succeeded [9] :=
  ⟨(classifyResponse_characterization 404 [1]).1 (by decide),
   (classifyResponse_characterization 200 []).2.1 rfl rfl,
   (classifyResponse_characterization 200 [9]).2.2 rfl (by decide)⟩

/-- C2 (counterexample): on `user_id = "4194304"` (which is `2 ^ 22`) and the
present, non-sentinel, non-numeric discriminator `"abc"`, the claim's case
order gives index `(4194304 >> 22) mod 6 = 1`, but `default_avatar_index`
returns 0 from the discriminator branch without consulting the user id. -/
theorem default_avatar_index_counterexample :
    default_avatar_index (some "4194304") (some "abc") = 0 ∧
      claimedAvatarIndex (some "4194304") (some "abc") = 1 ∧
      default_avatar_index (some "4194304") (some "abc") ≠
        claimedAvatarIndex (some "4194304") (some "abc") := by
  decide

/-- C2 (amended): if a discriminator is present (truthy) and not the sentinel
`"0"`/`"0000"`, the index is `int(discriminator) mod 5` when it parses and 0
when it does not (the user id is not consulted); otherwise, if a user id is
present, the index is `(int(user_id) >> 22) mod 6` when it parses and 0 when
it does not; otherwise the index is 0.  Parse failures never raise. -/
theorem default_avatar_index_characterization (u d : Option String) :
    (pyTruthy d = true → d ≠ some "0" → d ≠ some "0000" →
      ((∀ n, pyInt (d.getD "") = some n → default_avatar_index u d = n % 5) ∧
       (pyInt (d.getD "") = none → default_avatar_index u d = 0))) ∧
    ((pyTruthy d = false ∨ d = some "0" ∨ d = some "0000") →
      pyTruthy u = true →
      ((∀ n, pyInt (u.getD "") = some n →
          default_avatar_index u d = (n / 4194304) % 6) ∧
       (pyInt (u.getD "") = none → default_avatar_index u d = 0))) ∧
    ((pyTruthy d = false ∨ d = some "0" ∨ d = some "0000") →
      pyTruthy u = false → default_avatar_index u d = 0) := by
  refine ⟨fun h1 h2 h3 => ⟨fun n hn => ?_, fun hn => ?_⟩,
    fun h1 h2 => ⟨fun n hn => ?_, fun hn => ?_⟩, fun h1 h2 => ?_⟩
  · simp [default_avatar_index, h1, h2, h3, hn]
  · simp [default_avatar_index, h1, h2, h3, hn]
  · rcases h1 with h1 | h1 | h1 <;> simp [default_avatar_index, h1, h2, hn]
  · rcases h1 with h1 | h1 | h1 <;> simp [default_avatar_index, h1, h2, hn]
  · rcases h1 with h1 | h1 | h1 <;> simp [default_avatar_index, h1, h2]

/-- Witness for `default_avatar_index_characterization`: discriminator
`"1234"` gives `1234 mod 5 = 4`; sentinel discriminator `"0"` with user id
`"123456789012345678"` gives `(id >> 22) mod 6 = 0`; no inputs give 0. -/
theorem default_avatar_index_characterization_witness :
    default_avatar_index none (some "1234") = 1234 % 5 ∧
    default_avatar_index (some "123456789012345678") (some "0") =
      (123456789012345678 / 4194304) % 6 ∧
    default_avatar_index none none = 0 :=
  ⟨((default_avatar_index_characterization none (some "1234")).1
      rfl (by decide) (by decide)).1 1234 (by decide),
   ((default_avatar_index_characterization (some "123456789012345678")
      (some "0")).2.1 (by decide) rfl).1 123456789012345678 (by decide),
   (default_avatar_index_characterization none none).2.2 (by decide) rfl⟩

/-- C9: `request_icon` with the empty-string key is a complete no-op: the
state (memory cache, negative cache, in-flight set, disk store) is returned
unchanged and no effect — disk read, fetch scheduling, notification or log —
is produced. -/
theorem requestIcon_empty_key_noop {Icon : Type}
    (decode : List Nat → Option Icon) (s : CacheState Icon)
    (url : Option String) (now : Nat) :
    requestIcon decode s "" url now = (s, []) := by
  simp [requestIcon]

/-- C10: `default_avatar_index` always lands in `0..5`, so the `index mod 6`
normalisation in `build_default_avatar_url` maps the produced index to
itself: the URL embeds the index unchanged. -/
theorem default_avatar_index_in_range (u d : Option String) (size : Nat) :
    0 ≤ default_avatar_index u d ∧ default_avatar_index u d ≤ 5 ∧
      build_default_avatar_url (default_avatar_index u d) size =
        CDN_BASE ++ "/embed/avatars/" ++ toString (default_avatar_index u d)
          ++ ".png?size=" ++ toString size := by
  have hb : 0 ≤ default_avatar_index u d ∧ default_avatar_index u d < 6 := by
    unfold default_avatar_index
    split
    · split
      · next n _ =>
        have h1 := Int.emod_nonneg n (by norm_num : (5 : Int) ≠ 0)
        have h2 := Int.emod_lt_of_pos n (by norm_num : (0 : Int) < 5)
        omega
      · norm_num
    · split
      · split
        · next n _ =>
          have h1 := Int.emod_nonneg (n / 4194304) (by norm_num : (6 : Int) ≠ 0)
          have h2 := Int.emod_lt_of_pos (n / 4194304) (by norm_num : (0 : Int) < 6)
          omega
        · norm_num
      · norm_num
  refine ⟨hb.1, by omega, ?_⟩
  rw [build_default_avatar_url, Int.emod_eq_of_lt hb.1 hb.2]

/-- C3: request de-duplication.  If `k` is already in the in-flight set,
`request_icon(k, url)` is a complete no-op; and whenever a `request_icon`
call schedules a fetch for `k`, an immediately following `request_icon` for
`k` (before any completion is delivered) is a no-op and schedules nothing,
so at most one fetch per key is outstanding. -/
theorem requestIcon_dedup {Icon : Type} (decode : List Nat → Option Icon)
    (s : CacheState Icon) (k : String) (url url2 : Option String)
    (now now2 : Nat) :
    (s.inFlight k = true → requestIcon decode s k url now = (s, [])) ∧
    (∀ u s2 effs, requestIcon decode s k url now = (s2, effs) →
      Effect.scheduleFetch k u ∈ effs →
      requestIcon decode s2 k url2 now2 = (s2, [])) := by
  constructor
  · intro h
    exact requestIcon_eq_noop decode s k url now (Or.inr (Or.inr (Or.inl h)))
  · intro u s2 effs heq hmem
    by_cases h1 : k = ""
    · rw [requestIcon_eq_noop decode s k url now (Or.inl h1)] at heq
      injection heq with hs he
      subst hs; subst he
      simp at hmem
    · by_cases h2 : (odLookup k s.memory).isSome
      · rw [requestIcon_eq_noop decode s k url now (Or.inr (Or.inl h2))] at heq
        injection heq with hs he
        subst hs; subst he
        simp at hmem
      · have h2n : odLookup k s.memory = none := by
          cases ho : odLookup k s.memory with
          | none => rfl
          | some _ => exact absurd (by simp [ho]) h2
        by_cases h3 : s.inFlight k
        · rw [requestIcon_eq_noop decode s k url now
            (Or.inr (Or.inr (Or.inl h3)))] at heq
          injection heq with hs he
          subst hs; subst he
          simp at hmem
        · have h3f : s.inFlight k = false := by
            revert h3; cases s.inFlight k <;> simp
          by_cases h4 : coolingDown s k now
          · rw [requestIcon_eq_noop decode s k url now
              (Or.inr (Or.inr (Or.inr h4)))] at heq
            injection heq with hs he
            subst hs; subst he
            simp at hmem
          · have h4f : coolingDown s k now = false := by
              revert h4; cases coolingDown s k now <;> simp
            cases hld : loadFromDisk decode s k with
            | some icon =>
              rw [requestIcon_diskHit decode s k url now icon h1 h2n h3f h4f
                hld] at heq
              injection heq with hs he
              subst hs; subst he
              simp at hmem
            | none =>
              cases url with
              | none =>
                rw [requestIcon_diskMiss_noUrl decode s k now h1 h2n h3f h4f
                  hld] at heq
                injection heq with hs he
                subst hs; subst he
                simp at hmem
              | some u0 =>
                rw [requestIcon_schedule decode s k u0 now h1 h2n h3f h4f
                  hld] at heq
                injection heq with hs he
                subst hs; subst he
                apply requestIcon_eq_noop
                refine Or.inr (Or.inr (Or.inl ?_))
                simp

/-- A state with key `"k"` in flight, for exercising the dedup theorem. -/
def inFlightStateW : CacheState Nat :=
  { memory := []
    maxItems := 256
    inFlight := fun k2 => k2 == "k"
    failedUntil := fun _ => none
    diskDir := "root/icons"
    disk := fun _ => none }

/-- An empty-cache state over an empty filesystem. -/
def wState : CacheState Nat := initialState Nat "root" 256 (fun _ => none)

/-- Witness for `requestIcon_dedup`: with `"k"` in flight the request is a
no-op, and after a first request schedules a fetch from the empty state, the
repeated request is a no-op on the post-schedule state. -/
theorem requestIcon_dedup_witness :
    requestIcon (fun _ => none) inFlightStateW "k" (some "u") 0 =
      (inFlightStateW, []) ∧
    requestIcon (fun _ => none)
      ({ wState with
          inFlight := fun k2 => if k2 = "k" then true else wState.inFlight k2 })
      "k" (some "u") 1 =
      ({ wState with
          inFlight := fun k2 => if k2 = "k" then true else wState.inFlight k2 },
       []) :=
  ⟨(requestIcon_dedup (fun _ => none) inFlightStateW "k" (some "u") (some "u")
      0 1).1 rfl,
   (requestIcon_dedup (fun _ => none) wState "k" (some "u") (some "u") 0 1).2
      "u" _ _
      (requestIcon_schedule (fun _ => none) wState "k" "u" 0 (by decide) rfl
        rfl rfl rfl)
      (by simp)⟩

/-- C4: a fetch failure for `k` at time `t` records the cooldown deadline
`t + 300`; while a recorded deadline lies in the future, `request_icon`
returns having produced no effect at all (in particular no disk read and no
fetch); once the deadline has passed the entry is ignored, and with the key
otherwise unresolved `request_icon` schedules a fetch again. -/
theorem cooldown_suppresses_and_expires {Icon : Type}
    (decode : List Nat → Option Icon) (s : CacheState Icon)
    (k reason : String) (url : Option String) (t now : Nat) :
    ((onDownloadFailed s k reason t).1.failedUntil k = some (t + 300)) ∧
    (∀ t2, s.failedUntil k = some (t2 + 300) → now < t2 + 300 →
      requestIcon decode s k url now = (s, [])) ∧
    (∀ d u, s.failedUntil k = some d → d ≤ now → k ≠ "" →
      odLookup k s.memory = none → s.inFlight k = false →
      loadFromDisk decode s k = none →
      requestIcon decode s k (some u) now =
        ({ s with inFlight := fun k2 => if k2 = k then true
            else s.inFlight k2 },
         [.diskRead (cachePath s.diskDir k), .scheduleFetch k u])) := by
  refine ⟨?_, ?_, ?_⟩
  · simp [onDownloadFailed, markFailed, RETRY_COOLDOWN_SECONDS]
  · intro t2 hd hlt
    apply requestIcon_eq_noop
    refine Or.inr (Or.inr (Or.inr ?_))
    simp [coolingDown, hd]
    omega
  · intro d u hd hle hk hm hif hld
    refine requestIcon_schedule decode s k u now hk hm hif ?_ hld
    simp [coolingDown, hd]
    omega

/-- A state whose negative cache holds deadline 300 for `"k"`. -/
def cooldownStateW : CacheState Nat :=
  { memory := []
    maxItems := 256
    inFlight := fun _ => false
    failedUntil := fun k2 => if k2 = "k" then some 300 else none
    diskDir := "root/icons"
    disk := fun _ => none }

/-- Witness for `cooldown_suppresses_and_expires`: a failure at time 7 sets
deadline 307; at time 10 the request is suppressed; at time 400 (deadline
300 passed) the request schedules a fetch. -/
theorem cooldown_suppresses_and_expires_witness :
    (onDownloadFailed wState "k" "HTTP 500" 7).1.failedUntil "k" =
      some (7 + 300) ∧
    requestIcon (fun _ => none) cooldownStateW "k" (some "u") 10 =
      (cooldownStateW, []) ∧
    requestIcon (fun _ => none) cooldownStateW "k" (some "u") 400 =
      ({ cooldownStateW with inFlight := fun k2 => if k2 = "k" then true
          else cooldownStateW.inFlight k2 },
       [.diskRead (cachePath cooldownStateW.diskDir "k"),
        .scheduleFetch "k" "u"]) :=
  ⟨(cooldown_suppresses_and_expires (fun _ => none) wState "k" "HTTP 500"
      (some "u") 7 10).1,
   (cooldown_suppresses_and_expires (fun _ => none) cooldownStateW "k" "r"
      (some "u") 0 10).2.1 0 rfl (by decide),
   (cooldown_suppresses_and_expires (fun _ => none) cooldownStateW "k" "r"
      (some "u") 0 400).2.2 300 "u" rfl (by decide) (by decide) rfl rfl rfl⟩

/-- C5: delivering a successful fetch whose payload decodes removes the key
from the in-flight set, makes the decoded icon available in the memory
cache, persists the raw payload bytes at the key's disk path, clears the
negative-cache entry, and emits exactly one `(key, icon)` notification. -/
theorem downloadSucceeded_success_path {Icon : Type}
    (decode : List Nat → Option Icon) (s : CacheState Icon) (k : String)
    (payload : List Nat) (icon : Icon) (now : Nat)
    (hdec : decode payload = some icon) (hcap : 0 < s.maxItems) :
    (onDownloadSucceeded decode s k payload now).1.inFlight k = false ∧
    odLookup k (onDownloadSucceeded decode s k payload now).1.memory =
      some icon ∧
    (onDownloadSucceeded decode s k payload now).1.disk
      (cachePath s.diskDir k) = some payload ∧
    (onDownloadSucceeded decode s k payload now).1.failedUntil k = none ∧
    (onDownloadSucceeded decode s k payload now).2.filter isNotify =
      [.iconReady k icon] := by
  refine ⟨?_, ?_, ?_, ?_, ?_⟩
  · simp [onDownloadSucceeded, hdec, storeToDisk, remember]
  · simp only [onDownloadSucceeded, hdec, storeToDisk, remember]
    exact odLookup_rememberMem _ _ _ _ hcap
  · simp [onDownloadSucceeded, hdec, storeToDisk, remember]
  · simp [onDownloadSucceeded, hdec, storeToDisk, remember]
  · simp [onDownloadSucceeded, hdec, storeToDisk, remember, isNotify]

/-- Decoder used by witnesses: any non-empty byte list decodes to icon 7. -/
def wDecode : List Nat → Option Nat :=
  fun b => if b.isEmpty then none else some 7

/-- Witness for `downloadSucceeded_success_path` on the empty cache with
payload `[1, 2]`. -/
theorem downloadSucceeded_success_path_witness :
    (onDownloadSucceeded wDecode wState "k" [1, 2] 5).1.inFlight "k" = false ∧
    odLookup "k" (onDownloadSucceeded wDecode wState "k" [1, 2] 5).1.memory =
      some 7 ∧
    (onDownloadSucceeded wDecode wState "k" [1, 2] 5).1.disk
      (cachePath wState.diskDir "k") = some [1, 2] ∧
    (onDownloadSucceeded wDecode wState "k" [1, 2] 5).1.failedUntil "k" =
      none ∧
    (onDownloadSucceeded wDecode wState "k" [1, 2] 5).2.filter isNotify =
      [.iconReady "k" 7] :=
  downloadSucceeded_success_path wDecode wState "k" [1, 2] 7 5 rfl (by decide)

/-- C6: a 200 response with a non-empty body is delivered as a success, but
when its bytes fail image decoding the delivery records a cooldown for the
key with reason `invalid image`, emits no notification, and leaves the
memory cache and the disk store untouched. -/
theorem invalidImage_is_failure {Icon : Type}
    (decode : List Nat → Option Icon) (s : CacheState Icon) (k : String)
    (payload : List Nat) (now : Nat)
    (hne : payload ≠ []) (hdec : decode payload = none) :
    classifyResponse 200 payload = .succeeded payload ∧
    (onDownloadSucceeded decode s k payload now).1.failedUntil k =
      some (now + 300) ∧
    (onDownloadSucceeded decode s k payload now).1.memory = s.memory ∧
    (onDownloadSucceeded decode s k payload now).1.disk = s.disk ∧
    (onDownloadSucceeded decode s k payload now).2.filter isNotify = [] ∧
    (onDownloadSucceeded decode s k payload now).2 =
      [.logFailure k "invalid image"] := by
  refine ⟨by simp [classifyResponse, hne], ?_, ?_, ?_, ?_, ?_⟩ <;>
    simp [onDownloadSucceeded, hdec, markFailed, RETRY_COOLDOWN_SECONDS,
      isNotify]

/-- Decoder used by witnesses: every byte list fails to decode. -/
def wDecodeNone : List Nat → Option Nat := fun _ => none

/-- Witness for `invalidImage_is_failure` with payload `[3]` at time 9. -/
theorem invalidImage_is_failure_witness :
    classifyResponse 200 [3] = .succeeded [3] ∧
    (onDownloadSucceeded wDecodeNone wState "k" [3] 9).1.failedUntil "k" =
      some (9 + 300) ∧
    (onDownloadSucceeded wDecodeNone wState "k" [3] 9).1.memory =
      wState.memory ∧
    (onDownloadSucceeded wDecodeNone wState "k" [3] 9).1.disk = wState.disk ∧
    (onDownloadSucceeded wDecodeNone wState "k" [3] 9).2.filter isNotify =
      [] ∧
    (onDownloadSucceeded wDecodeNone wState "k" [3] 9).2 =
      [.logFailure "k" "invalid image"] :=
  invalidImage_is_failure wDecodeNone wState "k" [3] 9 (by decide) rfl

/-- Default of the `max_items` constructor argument of `IconCache`. -/
def DEFAULT_MAX_ITEMS : Nat := 256

/-- C7: the memory cache is capacity-bounded with least-recently-used
eviction (default capacity 256).  `_remember` erases any old entry for the
key, appends the entry at the most-recent end, then drops entries from the
least-recent front exactly while the size exceeds the capacity; resolving
`cap + 1` distinct keys into an empty cache leaves exactly `cap` entries,
the first-resolved (least recently used) key having been evicted; and a
`get_icon` hit moves the key to the most-recent end. -/
theorem memory_cache_lru {Icon : Type} (cap : Nat)
    (mem : List (String × Icon)) (k : String) (icon : Icon)
    (s : CacheState Icon) (ks : List String) (f : String → Icon)
    (hnd : ks.Nodup) (hlen : ks.length = cap + 1)
    (hhit : odLookup k s.memory = some icon) :
    DEFAULT_MAX_ITEMS = 256 ∧
    rememberMem cap mem k icon =
      (odErase k mem ++ [(k, icon)]).drop ((odErase k mem).length + 1 - cap) ∧
    insertAllMem cap f ks [] = ks.tail.map (fun k2 => (k2, f k2)) ∧
    (insertAllMem cap f ks []).length = cap ∧
    get_icon s k =
      (some icon, { s with memory := odErase k s.memory ++ [(k, icon)] }) := by
  have hins : insertAllMem cap f ks [] =
      ks.tail.map (fun k2 => (k2, f k2)) := by
    have h := insertAllMem_fresh cap f ks [] (by simpa using hnd)
      (Nat.zero_le cap)
    simp only [List.nil_append, List.length_nil, Nat.zero_add, hlen] at h
    have hone : cap + 1 - cap = 1 := by omega
    rw [hone] at h
    cases ks with
    | nil => simp at hlen
    | cons a t => simpa using h
  refine ⟨rfl, rememberMem_eq_drop cap mem k icon, hins, ?_, ?_⟩
  · rw [hins]
    cases ks with
    | nil => simp at hlen
    | cons a t =>
      simp only [List.length_cons] at hlen
      simp only [List.tail_cons, List.length_map]
      omega
  · simp [get_icon, hhit]

/-- A two-entry memory cache holding `"x"` (older) and `"k"` (newer). -/
def wStateMem : CacheState Nat :=
  { memory := [("x", 5), ("k", 7)]
    maxItems := 256
    inFlight := fun _ => false
    failedUntil := fun _ => none
    diskDir := "root/icons"
    disk := fun _ => none }

/-- Witness for `memory_cache_lru`: capacity 2, keys "a","b","c", and a hit
on `"k"` in `wStateMem`. -/
theorem memory_cache_lru_witness :
    DEFAULT_MAX_ITEMS = 256 ∧
    rememberMem 2 [("x", (5 : Nat))] "k" 7 =
      (odErase "k" [("x", 5)] ++ [("k", 7)]).drop
        ((odErase "k" [("x", (5 : Nat))]).length + 1 - 2) ∧
    insertAllMem 2 (fun _ => (0 : Nat)) ["a", "b", "c"] [] =
      ["a", "b", "c"].tail.map (fun k2 => (k2, (0 : Nat))) ∧
    (insertAllMem 2 (fun _ => (0 : Nat)) ["a", "b", "c"] []).length = 2 ∧
    get_icon wStateMem "k" =
      (some 7,
       { wStateMem with memory := odErase "k" wStateMem.memory ++ [("k", 7)] }) :=
  memory_cache_lru 2 [("x", 5)] "k" 7 wStateMem ["a", "b", "c"]
    (fun _ => 0) (by decide) rfl rfl

/-- C8: the disk path of key `k` is `<cache-root>/icons/<sha256(k)>.img`
(SHA-256 of the UTF-8 bytes of the key, lower-case hex); and after
`_store_to_disk` writes the bytes for `k`, a fresh cache instance over the
same filesystem answering `request_icon(k, none)` reads the file, decodes
the bytes, places the icon in its memory cache, emits the notification, and
schedules no fetch. -/
theorem disk_roundtrip {Icon : Type} (decode : List Nat → Option Icon)
    (cacheRoot k : String) (payload : List Nat) (icon : Icon)
    (s : CacheState Icon) (now : Nat)
    (hdir : s.diskDir = cacheRoot ++ "/icons") (hk : k ≠ "")
    (hdec : decode payload = some icon) :
    cachePath s.diskDir k =
      cacheRoot ++ "/icons/" ++ hexOfBytes (sha256 (utf8Encode k))
        ++ ".img" ∧
    requestIcon decode
        (initialState Icon cacheRoot 256 ((storeToDisk s k payload).1.disk))
        k none now =
      ({ initialState Icon cacheRoot 256 ((storeToDisk s k payload).1.disk)
          with memory := [(k, icon)] },
       [.diskRead (cachePath (cacheRoot ++ "/icons") k),
        .iconReady k icon]) ∧
    (requestIcon decode
        (initialState Icon cacheRoot 256 ((storeToDisk s k payload).1.disk))
        k none now).2.filter isSchedule = [] := by
  have hstep : (cacheRoot ++ "/icons") ++ "/" = cacheRoot ++ "/icons/" := by
    rw [String.append_assoc]
    rfl
  have hload : loadFromDisk decode
      (initialState Icon cacheRoot 256 ((storeToDisk s k payload).1.disk))
      k = some icon := by
    simp [loadFromDisk, initialState, storeToDisk, hdir, hdec]
  have hfresh := requestIcon_diskHit decode
    (initialState Icon cacheRoot 256 ((storeToDisk s k payload).1.disk))
    k none now icon hk rfl rfl (by simp [coolingDown, initialState]) hload
  have hmem1 : rememberMem 256 ([] : List (String × Icon)) k icon =
      [(k, icon)] := by
    simp [rememberMem, odErase, evictLoop]
  refine ⟨?_, ?_, ?_⟩
  · rw [cachePath, hdir, hstep]
  · rw [hfresh, remember]
    simp only [initialState] at hmem1 ⊢
    rw [hmem1]
  · rw [hfresh]
    simp [isSchedule]

/-- Witness for `disk_roundtrip`: key `"k"`, payload `[1, 2]`, starting from
the empty cache `wState` whose root is `"root"`. -/
theorem disk_roundtrip_witness :
    cachePath wState.diskDir "k" =
      "root" ++ "/icons/" ++ hexOfBytes (sha256 (utf8Encode "k"))
        ++ ".img" ∧
    requestIcon wDecode
        (initialState Nat "root" 256 ((storeToDisk wState "k" [1, 2]).1.disk))
        "k" none 3 =
      ({ initialState Nat "root" 256 ((storeToDisk wState "k" [1, 2]).1.disk)
          with memory := [("k", 7)] },
       [.diskRead (cachePath ("root" ++ "/icons") "k"),
        .iconReady "k" 7]) ∧
    (requestIcon wDecode
        (initialState Nat "root" 256 ((storeToDisk wState "k" [1, 2]).1.disk))
        "k" none 3).2.filter isSchedule = [] :=
  disk_roundtrip wDecode "root" "k" [1, 2] 7 wState 3 rfl (by decide) rfl

end ChatForge
